import Mathlib

/-!
Verification of the stash-graphql-tagger core against its specification.

The Python sources are shallowly embedded as executable Lean definitions:
machine integers become `Int`/`Nat`, Python floats become exact rationals
(`ℚ`), dictionaries with optional keys become structures of `Option` fields,
and fallible parsing returns `Option`.  Each section names the source file
and function it embeds.
-/

namespace StashTagger

/-! ## Character and string primitives

Models of the Python string primitives used by the sources: `str.strip`,
`str.split`, `int(...)`, `float(...)`, substring membership (`in`),
`str.upper` / `str.lower`.
-/

/-- Numeric value of a digit string (most significant digit first). -/
def natOfDigits (l : List Char) : Nat :=
  l.foldl (fun a c => a * 10 + (c.toNat - 48)) 0

/-- Model of Python `int(str)` on the sign-and-digits fragment:
an optional leading minus sign followed by a nonempty digit run. -/
def pyInt : List Char → Option Int
  | [] => none
  | c :: rest =>
    if c = '-' then
      if rest ≠ [] ∧ rest.all Char.isDigit then some (-(natOfDigits rest : Int))
      else none
    else if (c :: rest).all Char.isDigit then some ((natOfDigits (c :: rest) : Int))
    else none

/-- Substring membership, model of Python `pat in s` on character lists. -/
def hasSubstr (pat : List Char) : List Char → Bool
  | [] => decide (pat = [])
  | c :: rest => pat.isPrefixOf (c :: rest) || hasSubstr pat rest

/-- Model of Python `str.upper` (character-wise). -/
def toUpperList (l : List Char) : List Char := l.map Char.toUpper

/-- Model of Python `str.lower` (character-wise). -/
def lowerStr (s : String) : String := s.map Char.toLower

/-! ## utils/helpers.py -/

/-- A tag reference `{id, name}`. -/
structure TagRef where
  id : Option String := none
  name : Option String := none
deriving DecidableEq

/-- A performer reference `{id, name}`. -/
structure PerformerRef where
  id : Option String := none
  name : Option String := none
deriving DecidableEq

/-- A studio reference `{id, name}`. -/
structure StudioRef where
  id : Option String := none
  name : Option String := none
deriving DecidableEq

/-- A scene record with its normalized derived fields (`_filesize`,
`_duration`, `_path`, `_width`, `_height`, `_resolution`).  Durations are
Python floats, modelled as exact rationals. -/
structure Scene where
  id : Option String := none
  title : Option String := none
  date : Option String := none
  tags : List TagRef := []
  performers : List PerformerRef := []
  studio : Option StudioRef := none
  path : Option String := none
  duration : Option ℚ := none
  width : Option Int := none
  height : Option Int := none
  resolution : Option String := none
  filesize : Option Int := none
deriving DecidableEq

/-! ## Bulk-mutation workers

src/workers/apply_tag_worker.py, rename_scene_worker.py,
assign_performers_worker.py, assign_studio_worker.py.

A worker's network call is modelled by an oracle value supplied per record:
what `client.call` (respectively `client.call_graphql`) would produce for
that record's mutation request. -/

/-- Per-record outcome of a bulk mutation. -/
inductive Outcome where
  | updated
  | alreadySatisfied
  | skippedMissingRef
  | failed
deriving DecidableEq

/-- Result of `client.call` for one mutation request.
`exn` models a raised exception.  `resp dataId errors dump` models the
response dictionary: `dataId` is `resp["data"].get("sceneUpdate", {}).get("id")`
(outer `none` when the `"data"` key is absent), `errors` the optional
`"errors"` message list, `dump` the `json.dumps(resp)` fallback text. -/
inductive CallResult where
  | exn (msg : String)
  | resp (dataId : Option (Option String)) (errors : Option (List String)) (dump : String)
deriving DecidableEq

/-- The error text assembled by the workers: the "; "-joined message list
when `"errors"` is present and nonempty, otherwise the response dump
(apply_tag_worker.py lines 72-75 and the identical rename/performers code). -/
def err_text : Option (List String) → String → String
  | some (m :: ms), _ => String.intercalate "; " (m :: ms)
  | _, dump => dump

/-- The FOREIGN KEY test of the workers (apply_tag_worker.py line 77):
`"FOREIGN KEY" in err_text.upper() or "FOREIGN KEY" in err_text`. -/
def is_fk_error (t : String) : Bool :=
  hasSubstr "FOREIGN KEY".data (toUpperList t.data) ||
    hasSubstr "FOREIGN KEY".data t.data

/-- Shared outcome classification of a mutation response, embedded from
apply_tag_worker.py lines 66-85 (rename_scene_worker.py lines 55-75 and
assign_performers_worker.py lines 58-83 are textually identical):
success when the response's `sceneUpdate.id` equals the record's id,
FOREIGN KEY error text → skipped, any other error or exception → failed. -/
def classify_mutation_response (sceneId : Option String) : CallResult → Outcome
  | .exn _ => .failed
  | .resp dataId errors dump =>
    if dataId = some sceneId then .updated
    else if is_fk_error (err_text errors dump) then .skippedMissingRef
    else .failed

/-- What one tag-apply record produced: its outcome, whether a network call
was issued, and the `tag_ids` list sent in the mutation input (if any). -/
structure TagStepResult where
  outcome : Outcome
  networkCall : Bool
  sentTagIds : Option (List (Option String))
deriving DecidableEq

/-- Embeds the per-record body of `ApplyTagWorker.run`
(src/workers/apply_tag_worker.py lines 35-85): already tagged → no call;
dry-run → optimistic update, no call; otherwise send
`tag_ids := current ++ [tag_id]` and classify the response. -/
def apply_tag_step (tagId : String) (dryRun : Bool) (s : Scene)
    (resp : CallResult) : TagStepResult :=
  let current := s.tags.map TagRef.id
  if some tagId ∈ current then
    ⟨.alreadySatisfied, false, none⟩
  else
    let newTagIds := current ++ [some tagId]
    if dryRun then ⟨.updated, false, none⟩
    else ⟨classify_mutation_response s.id resp, true, some newTagIds⟩

/-- Embeds the per-record body of `RenameSceneWorker.run`
(src/workers/rename_scene_worker.py lines 34-79): no idempotence check;
dry-run → optimistic update, otherwise classify the response. -/
def rename_step (dryRun : Bool) (s : Scene) (resp : CallResult) : Outcome :=
  if dryRun then .updated
  else classify_mutation_response s.id resp

/-- Embeds the per-record body of `AssignPerformersWorker.run`
(src/workers/assign_performers_worker.py lines 32-85): already-assigned
when every requested performer id is present, dry-run → optimistic
update, otherwise classify the response of the mutation (whose sent
id list is Python's unordered `list(set(current + new))`). -/
def assign_performers_step (performerIds : List String) (dryRun : Bool)
    (s : Scene) (resp : CallResult) : Outcome :=
  let current := s.performers.map PerformerRef.id
  if performerIds.all (fun p => some p ∈ current) then .alreadySatisfied
  else if dryRun then .updated
  else classify_mutation_response s.id resp

/-- Result of `client.call_graphql` for a studio mutation.  `exn` models a
raised exception; `res hasSceneUpdate errorText` models a returned value:
`hasSceneUpdate` is `result and "sceneUpdate" in result`, and `errorText`
carries any server error text in the response — which
`AssignStudioWorker._assign_studio_to_scene` never inspects. -/
inductive StudioCallResult where
  | exn (msg : String)
  | res (hasSceneUpdate : Bool) (errorText : Option String)
deriving DecidableEq

/-- Embeds `AssignStudioWorker._assign_studio_to_scene`
(src/workers/assign_studio_worker.py lines 81-119): true exactly when the
call returned a value containing `"sceneUpdate"`; exceptions → false.  The
response's error text is never read. -/
def assign_studio_call : StudioCallResult → Bool
  | .exn _ => false
  | .res hasSceneUpdate _ => hasSceneUpdate

/-- Embeds the per-record body of `AssignStudioWorker.run`
(src/workers/assign_studio_worker.py lines 33-66): falsy scene id →
counted as skipped; same studio already assigned → already-satisfied;
dry-run → optimistic update; otherwise updated on call success else
failed. -/
def assign_studio_step (studioId : String) (dryRun : Bool) (s : Scene)
    (resp : StudioCallResult) : Outcome :=
  if s.id = none ∨ s.id = some "" then .skippedMissingRef
  else if s.studio.bind StudioRef.id = some studioId then .alreadySatisfied
  else if dryRun then .updated
  else if assign_studio_call resp then .updated
  else .failed

/-- Aggregate outcome counts of one bulk run (the workers' summary dict;
the rename worker has no already-satisfied key, its count stays 0). -/
structure Summary where
  updated : Nat
  alreadySatisfied : Nat
  skippedMissingRef : Nat
  failed : Nat
deriving DecidableEq

/-- Increment the summary counter of one outcome. -/
def Summary.bump (acc : Summary) : Outcome → Summary
  | .updated => { acc with updated := acc.updated + 1 }
  | .alreadySatisfied => { acc with alreadySatisfied := acc.alreadySatisfied + 1 }
  | .skippedMissingRef => { acc with skippedMissingRef := acc.skippedMissingRef + 1 }
  | .failed => { acc with failed := acc.failed + 1 }

/-- Sum of all four outcome counts. -/
def Summary.total (acc : Summary) : Nat :=
  acc.updated + acc.alreadySatisfied + acc.skippedMissingRef + acc.failed

/-- The whole `ApplyTagWorker.run` loop over its input records, each paired
with the oracle response of its mutation call. -/
def apply_tag_run (tagId : String) (dryRun : Bool)
    (records : List (Scene × CallResult)) : Summary :=
  records.foldl (fun acc r => acc.bump (apply_tag_step tagId dryRun r.1 r.2).outcome)
    ⟨0, 0, 0, 0⟩

/-- The whole `RenameSceneWorker.run` loop. -/
def rename_run (dryRun : Bool) (records : List (Scene × CallResult)) : Summary :=
  records.foldl (fun acc r => acc.bump (rename_step dryRun r.1 r.2)) ⟨0, 0, 0, 0⟩

/-- The whole `AssignPerformersWorker.run` loop. -/
def assign_performers_run (performerIds : List String) (dryRun : Bool)
    (records : List (Scene × CallResult)) : Summary :=
  records.foldl
    (fun acc r => acc.bump (assign_performers_step performerIds dryRun r.1 r.2))
    ⟨0, 0, 0, 0⟩

/-- The whole `AssignStudioWorker.run` loop. -/
def assign_studio_run (studioId : String) (dryRun : Bool)
    (records : List (Scene × StudioCallResult)) : Summary :=
  records.foldl
    (fun acc r => acc.bump (assign_studio_step studioId dryRun r.1 r.2))
    ⟨0, 0, 0, 0⟩

/-! ## Scene query builder (src/stashapp_graphgl.py, on_search_scenes and
_on_scenes_found) -/

/-- Embeds the duration `operator_map` dictionary
(src/stashapp_graphgl.py lines 1785-1793); indices outside 0-6 raise a
`KeyError` in Python, modelled as `none`. -/
def duration_operator_map : Nat → Option String
  | 0 => some "EQUALS"
  | 1 => some "NOT_EQUALS"
  | 2 => some "GREATER_THAN"
  | 3 => some "GREATER_THAN"
  | 4 => some "LESS_THAN"
  | 5 => some "LESS_THAN"
  | 6 => some "BETWEEN"
  | _ => none

/-- Embeds the file-size `operator_map` dictionary
(src/stashapp_graphgl.py lines 2148-2156). -/
def filesize_operator_map : Nat → Option String
  | 0 => some "EQUALS"
  | 1 => some "NOT_EQUALS"
  | 2 => some "GREATER_THAN"
  | 3 => some "GREATER_THAN"
  | 4 => some "LESS_THAN"
  | 5 => some "LESS_THAN"
  | 6 => some "BETWEEN"
  | _ => none

/-- The page size sent to the server (src/stashapp_graphgl.py lines
1884-1889): the spin-box value, overridden by 10000 whenever the file-size
filter checkbox is checked. -/
def effective_per_page (filesizeFilterEnabled : Bool) (spinValue : Nat) : Nat :=
  if filesizeFilterEnabled then 10000 else spinValue

/-- An intvalue criterion of the server-side scene filter:
`{value, value2?, modifier}`. -/
structure IntCriterion where
  value : Int
  value2 : Option Int := none
  modifier : String
deriving DecidableEq

/-- Embeds the duration entry of `scene_filter` built by
`SearchScenesWorker.run` (src/workers/find_scenes_worker.py lines
116-129): absent when no first value; both values with modifier BETWEEN
when the operator is BETWEEN and a second value exists; otherwise the
single value with the given operator as modifier. -/
def duration_scene_filter (v1 : Option Int) (v2 : Option Int) (op : String) :
    Option IntCriterion :=
  match v1 with
  | none => none
  | some v1 =>
    if op = "BETWEEN" ∧ v2.isSome then some ⟨v1, v2, "BETWEEN"⟩
    else some ⟨v1, none, op⟩

/-- Embeds the client-side predicate `size_ok` of `_on_scenes_found`
(src/stashapp_graphgl.py lines 2189-2204): scenes without a file size are
excluded; otherwise compare `_filesize` against the threshold(s) with the
mapped operator (note GREATER_THAN / LESS_THAN are strict). -/
def size_ok (filesizeOperator : String) (value1 value2 : Int)
    (filesize : Option Int) : Bool :=
  match filesize with
  | none => false
  | some fs =>
    if filesizeOperator = "EQUALS" then decide (fs = value1)
    else if filesizeOperator = "NOT_EQUALS" then decide (fs ≠ value1)
    else if filesizeOperator = "GREATER_THAN" then decide (value1 < fs)
    else if filesizeOperator = "LESS_THAN" then decide (fs < value1)
    else if filesizeOperator = "BETWEEN" then decide (value1 ≤ fs ∧ fs ≤ value2)
    else true

/-! ## Scene record normalizer (src/workers/find_scenes_worker.py lines
155-242) -/

/-- A numeric field of a raw file entry: absent (`null`), present but
failing every parse attempt, or parsed to a value. -/
inductive RawVal (α : Type) where
  | absent
  | bad
  | val (v : α)
deriving DecidableEq

/-- The parsed value, if any. -/
def RawVal.toOption {α : Type} : RawVal α → Option α
  | .absent => none
  | .bad => none
  | .val v => some v

/-- A raw file entry of a `findScenes` response.  `size`, `width`,
`height` parse to integers, `duration` to a float (exact rational). -/
structure RawFile where
  size : RawVal Int := .absent
  duration : RawVal ℚ := .absent
  width : RawVal Int := .absent
  height : RawVal Int := .absent
  path : Option String := none
deriving DecidableEq

/-- The per-file sizes that parsed (lines 166-182): unparseable values are
dropped without failing the scene. -/
def sizesOf (files : List RawFile) : List Int :=
  files.filterMap (fun f => f.size.toOption)

/-- The per-file durations that parsed (lines 184-190). -/
def durationsOf (files : List RawFile) : List ℚ :=
  files.filterMap (fun f => f.duration.toOption)

/-- The truthy (present and nonempty) file paths in server order
(lines 192-195: `if path: paths.append(str(path))`). -/
def pathsOf (files : List RawFile) : List String :=
  files.filterMap (fun f =>
    match f.path with
    | some p => if p = "" then none else some p
    | none => none)

/-- The per-file widths that parsed (lines 197-204). -/
def widthsOf (files : List RawFile) : List Int :=
  files.filterMap (fun f => f.width.toOption)

/-- The per-file heights that parsed (lines 197-209). -/
def heightsOf (files : List RawFile) : List Int :=
  files.filterMap (fun f => f.height.toOption)

/-- The derived scalar fields stored on a scene by the normalizer. -/
structure Derived where
  filesize : Option Int
  duration : Option ℚ
  path : Option String
  width : Option Int
  height : Option Int
  resolution : Option String
deriving DecidableEq

/-- Embeds the per-scene normalization body (lines 211-234):
maxima of the parsed per-file values (`max(xs) if xs else None`), first
truthy path, and the resolution label computed from `_height` — note the
Python truthiness test `if s["_height"]:` which treats a zero height like
an absent one. -/
def normalize_files (files : List RawFile) : Derived :=
  let eh := (heightsOf files).max?
  { filesize := (sizesOf files).max?
    duration := (durationsOf files).max?
    path := (pathsOf files).head?
    width := (widthsOf files).max?
    height := eh
    resolution :=
      match eh with
      | none => none
      | some h =>
        if h = 0 then none
        else if h ≥ 2160 then some "4K"
        else if h ≥ 1440 then some "1440p"
        else if h ≥ 1080 then some "1080p"
        else if h ≥ 720 then some "720p"
        else if h ≥ 480 then some "480p"
        else some (toString h ++ "p") }

/-- The resolution-label step function exactly as the specification words
it (first matching threshold on the effective height, else the height with
a "p" suffix) — for comparison with the code's `normalize_files`. -/
def resolution_label_spec (h : Int) : String :=
  if h ≥ 2160 then "4K"
  else if h ≥ 1440 then "1440p"
  else if h ≥ 1080 then "1080p"
  else if h ≥ 720 then "720p"
  else if h ≥ 480 then "480p"
  else toString h ++ "p"

/-! ## Selection/sort table (src/models/scene_table_model.py) -/

/-- Qt sort order. -/
inductive SortOrder where
  | ascending
  | descending
deriving DecidableEq

/-- The mutable state of `SceneTableModel`: the record list, the parallel
selection vector, the visible-column projection (indices into
`ALL_COLUMNS`, where index 0 is the Select checkbox column), and the
stored sort state. -/
structure TableModel where
  scenes : List Scene
  checked : List Bool
  visibleColumns : List Nat
  sortColumn : Int
  sortOrder : SortOrder
deriving DecidableEq

/-- `SceneTableModel.__init__` (lines 20-26): all twelve columns visible,
no sorting, selection vector all false at the record list's length. -/
def TableModel.init (scenes : List Scene) : TableModel :=
  { scenes := scenes
    checked := List.replicate scenes.length false
    visibleColumns := [0, 1, 2, 3, 4, 5, 6, 7, 8, 9, 10, 11]
    sortColumn := -1
    sortOrder := .ascending }

/-- `SceneTableModel.setScenes` (lines 131-135): replace the record list
and reset the selection vector to all false at the new length. -/
def TableModel.setScenes (m : TableModel) (scenes : List Scene) : TableModel :=
  { m with scenes := scenes, checked := List.replicate scenes.length false }

/-- `SceneTableModel.setData` on the checkbox column (lines 118-129):
set one row's selection bit (out-of-range rows are never delivered by the
view; `List.set` leaves them unchanged). -/
def TableModel.setChecked (m : TableModel) (row : Nat) (val : Bool) : TableModel :=
  { m with checked := m.checked.set row val }

/-- `SceneTableModel.select_all` (lines 140-147): early return on an empty
vector, otherwise set every bit. -/
def TableModel.selectAll (m : TableModel) (val : Bool) : TableModel :=
  if m.checked = [] then m
  else { m with checked := m.checked.map (fun _ => val) }

/-- The per-row assignment loop of `select_by_ids` (lines 230-231): bit `i`
becomes `scenes[i].id ∈ idSet`.  Python would raise past the end of a
too-short vector; under the length invariant that case is unreachable. -/
def applySelectByIds (idSet : List String) : List Scene → List Bool → List Bool
  | [], checked => checked
  | _ :: _, [] => []
  | s :: ss, _ :: cs =>
    (match s.id with | some i => decide (i ∈ idSet) | none => false)
      :: applySelectByIds idSet ss cs

/-- `SceneTableModel.select_by_ids` (lines 227-237): early return on an
empty selection vector, otherwise re-derive every bit from the id set. -/
def TableModel.selectByIds (m : TableModel) (idSet : List String) : TableModel :=
  if m.checked = [] then m
  else { m with checked := applySelectByIds idSet m.scenes m.checked }

/-- `SceneTableModel.set_visible_columns` (lines 32-36). -/
def TableModel.setVisibleColumns (m : TableModel) (v : List Nat) : TableModel :=
  { m with visibleColumns := v }

/-- A sort key produced by `sort_key` (lines 166-211): an integer, a
string, or a float (modelled as an exact rational). -/
inductive SortKey where
  | int (i : Int)
  | str (s : String)
  | rat (q : ℚ)
deriving DecidableEq

/-- Key comparison. Keys of one sort call always share a constructor
(the key type is determined by the sorted column); the mixed cases are
never exercised. -/
def SortKey.le : SortKey → SortKey → Bool
  | .int a, .int b => decide (a ≤ b)
  | .str a, .str b => decide (a ≤ b)
  | .rat a, .rat b => decide (a ≤ b)
  | _, _ => true

/-- `res.replace("p", "").replace("K", "000")` on a character list (the
patterns are single characters, so the replacement is character-wise). -/
def replaceResolution : List Char → List Char
  | [] => []
  | c :: rest =>
    if c = 'p' then replaceResolution rest
    else if c = 'K' then '0' :: '0' :: '0' :: replaceResolution rest
    else c :: replaceResolution rest

/-- Embeds `sort_key` (scene_table_model.py lines 166-211) for the actual
column index: int(id) with fallback 0; lower-cased title/studio/path;
sorted comma-joined lower-cased performer and tag names; date or empty
string; duration or 0; pixel count; parsed resolution number; file size
or 0. -/
def sort_key (actualCol : Nat) (s : Scene) : SortKey :=
  match actualCol with
  | 1 =>
    .int (match s.id with
      | some i => (pyInt i.data).getD 0
      | none => 0)
  | 2 => .str (lowerStr (s.title.getD ""))
  | 3 => .str (lowerStr ((s.studio.map (fun st => st.name.getD "")).getD ""))
  | 4 =>
    let names := s.performers.filterMap (fun p =>
      match p.name with
      | some n => if n = "" then none else some n
      | none => none)
    .str (if names = [] then ""
      else lowerStr (String.intercalate ", " (names.mergeSort (fun a b => decide (a ≤ b)))))
  | 5 =>
    let names := s.tags.filterMap (fun t =>
      match t.name with
      | some n => if n = "" then none else some n
      | none => none)
    .str (if names = [] then ""
      else lowerStr (String.intercalate ", " (names.mergeSort (fun a b => decide (a ≤ b)))))
  | 6 =>
    .str (match s.date with
      | some d => if d = "" then "" else d
      | none => "")
  | 7 => .str (lowerStr (s.path.getD ""))
  | 8 => .rat (s.duration.getD 0)
  | 9 => .int ((s.width.getD 0) * (s.height.getD 0))
  | 10 =>
    .int (match s.resolution with
      | some r => if r = "" then 0 else (pyInt (replaceResolution r.data)).getD 0
      | none => 0)
  | 11 => .int (s.filesize.getD 0)
  | _ => .str ""

/-- The element comparison used by the sort: keys of the records compared
ascending, or flipped for descending order (CPython's `reverse=True` is a
stable descending sort, which a left-biased merge with the flipped
comparison reproduces). -/
def sortLE (actualCol : Nat) (ord : SortOrder) :
    (Scene × Bool) × Nat → (Scene × Bool) × Nat → Bool :=
  fun a b =>
    match ord with
    | .ascending => (sort_key actualCol a.1.1).le (sort_key actualCol b.1.1)
    | .descending => (sort_key actualCol b.1.1).le (sort_key actualCol a.1.1)

/-- Embeds `SceneTableModel.sort` (lines 149-225): out-of-range columns
and the Select checkbox column are no-ops; otherwise zip records, bits and
indices, stably sort by the column's key, and unzip both sequences. -/
def TableModel.sort (m : TableModel) (column : Int) (ord : SortOrder) : TableModel :=
  if column < 0 ∨ (m.visibleColumns.length : Int) ≤ column then m
  else
    let actualCol := m.visibleColumns.getD column.toNat 0
    if actualCol = 0 then m
    else
      let combined := (m.scenes.zip m.checked).zip (List.range m.scenes.length)
      let sorted := combined.mergeSort (sortLE actualCol ord)
      { m with
          scenes := sorted.map (fun t => t.1.1)
          checked := sorted.map (fun t => t.1.2)
          sortColumn := column
          sortOrder := ord }

/-! ## Lemmas about the string primitives -/

/-- Counterexample to claim C1 as stated: the greater-or-equal operator
(combo index 3) and the less-or-equal operator (index 5) are mapped to the
strict modifiers even client-side, so a scene whose effective size equals
the threshold (here 1048576 bytes) is rejected by both — the claimed
exactness at equality fails. -/
theorem c1_counterexample :
    filesize_operator_map 3 = some "GREATER_THAN"
  ∧ filesize_operator_map 5 = some "LESS_THAN"
  ∧ size_ok "GREATER_THAN" 1048576 0 (some 1048576) = false
  ∧ size_ok "LESS_THAN" 1048576 0 (some 1048576) = false := by
  decide

/-- Claim C1 (amended): when the file-size criterion is active the page
size sent to the server is forced to 10000 regardless of the spin-box
value, and the client-side predicate reuses the duration operator map —
including its strict approximation of greater-or-equal and less-or-equal
as GREATER_THAN and LESS_THAN — so it is exact for equals, not-equals,
strict comparisons and between, while a scene whose effective size equals
the threshold is rejected under the two approximated operators; scenes
with no effective size are always rejected. -/
theorem c1_filesize_filter_behavior :
    (∀ spinValue : Nat, effective_per_page true spinValue = 10000)
  ∧ filesize_operator_map = duration_operator_map
  ∧ (∀ v1 v2 fs : Int,
      size_ok "EQUALS" v1 v2 (some fs) = decide (fs = v1)
    ∧ size_ok "NOT_EQUALS" v1 v2 (some fs) = decide (fs ≠ v1)
    ∧ size_ok "GREATER_THAN" v1 v2 (some fs) = decide (v1 < fs)
    ∧ size_ok "LESS_THAN" v1 v2 (some fs) = decide (fs < v1)
    ∧ size_ok "BETWEEN" v1 v2 (some fs) = decide (v1 ≤ fs ∧ fs ≤ v2))
  ∧ (∀ (op : String) (v1 v2 : Int), size_ok op v1 v2 none = false) := by
  refine ⟨fun _ => rfl, ?_, ?_, fun _ _ _ => rfl⟩
  · funext n
    rcases n with _ | _ | _ | _ | _ | _ | _ | n <;> rfl
  · intro v1 v2 fs
    refine ⟨?_, ?_, ?_, ?_, ?_⟩ <;> simp [size_ok]

/-- Claim C3: the duration operator map sends greater-or-equal (index 3)
and less-or-equal (index 5) to the strict server modifiers GREATER_THAN
and LESS_THAN — the documented approximation — while equals, not-equals,
greater-than, less-than and between map to their exact modifiers, and the
worker places the mapped operator verbatim as the filter's modifier. -/
theorem c3_duration_operator_mapping :
    duration_operator_map 3 = some "GREATER_THAN"
  ∧ duration_operator_map 5 = some "LESS_THAN"
  ∧ duration_operator_map 0 = some "EQUALS"
  ∧ duration_operator_map 1 = some "NOT_EQUALS"
  ∧ duration_operator_map 2 = some "GREATER_THAN"
  ∧ duration_operator_map 4 = some "LESS_THAN"
  ∧ duration_operator_map 6 = some "BETWEEN"
  ∧ (∀ (v1 : Int) (v2 : Option Int) (op : String), op ≠ "BETWEEN" →
      duration_scene_filter (some v1) v2 op = some ⟨v1, none, op⟩)
  ∧ (∀ v1 v2 : Int,
      duration_scene_filter (some v1) (some v2) "BETWEEN" =
        some ⟨v1, some v2, "BETWEEN"⟩) := by
  refine ⟨rfl, rfl, rfl, rfl, rfl, rfl, rfl, ?_, ?_⟩
  · intro v1 v2 op hop
    simp [duration_scene_filter, hop]
  · intro v1 v2
    simp [duration_scene_filter]

/-- Witness for C3: the approximated greater-or-equal request at value 600
carries the strict modifier. -/
theorem c3_duration_operator_mapping_witness :
    duration_scene_filter (some 600) none "GREATER_THAN" =
      some ⟨600, none, "GREATER_THAN"⟩ :=
  c3_duration_operator_mapping.2.2.2.2.2.2.2.1 600 none "GREATER_THAN" (by decide)

/-! ## Claim theorems: bulk-mutation workers -/

theorem hasSubstr_iff (pat : List Char) (l : List Char) :
    hasSubstr pat l = true ↔ pat <:+: l := by
  induction l with
  | nil =>
    simp only [hasSubstr, decide_eq_true_eq]
    exact ⟨fun h => h ▸ List.infix_refl [], fun h => List.eq_nil_of_infix_nil h⟩
  | cons c rest ih =>
    simp only [hasSubstr, Bool.or_eq_true, List.isPrefixOf_iff_prefix, ih,
      List.infix_cons_iff]

theorem is_fk_error_upper (t : String) :
    is_fk_error t = hasSubstr ("FOREIGN KEY".data) (toUpperList t.data) := by
  unfold is_fk_error
  cases hA : hasSubstr "FOREIGN KEY".data (toUpperList t.data)
  · simp only [Bool.false_or]
    cases hB : hasSubstr "FOREIGN KEY".data t.data
    · rfl
    · exfalso
      have hinf : "FOREIGN KEY".data <:+: t.data := (hasSubstr_iff _ _).mp hB
      have hmap : "FOREIGN KEY".data.map Char.toUpper <:+: t.data.map Char.toUpper :=
        hinf.map Char.toUpper
      rw [show "FOREIGN KEY".data.map Char.toUpper = "FOREIGN KEY".data from by decide]
        at hmap
      have : hasSubstr "FOREIGN KEY".data (toUpperList t.data) = true :=
        (hasSubstr_iff _ _).mpr hmap
      rw [hA] at this
      exact Bool.false_ne_true this
  · simp

theorem foldl_bump_total {α : Type} (f : α → Outcome) (l : List α) (acc : Summary) :
    (l.foldl (fun a x => a.bump (f x)) acc).total = acc.total + l.length := by
  induction l generalizing acc with
  | nil => simp
  | cons x xs ih =>
    rw [List.foldl_cons, ih]
    have hb : (acc.bump (f x)).total = acc.total + 1 := by
      cases f x <;> simp [Summary.bump, Summary.total] <;> omega
    rw [hb]
    simp [Nat.add_assoc, Nat.add_comm 1]

theorem apply_tag_run_total (tagId : String) (dryRun : Bool)
    (records : List (Scene × CallResult)) :
    (apply_tag_run tagId dryRun records).total = records.length := by
  unfold apply_tag_run
  rw [foldl_bump_total]
  simp [Summary.total]

theorem rename_run_total (dryRun : Bool) (records : List (Scene × CallResult)) :
    (rename_run dryRun records).total = records.length := by
  unfold rename_run
  rw [foldl_bump_total]
  simp [Summary.total]

theorem assign_performers_run_total (performerIds : List String) (dryRun : Bool)
    (records : List (Scene × CallResult)) :
    (assign_performers_run performerIds dryRun records).total = records.length := by
  unfold assign_performers_run
  rw [foldl_bump_total]
  simp [Summary.total]

theorem assign_studio_run_total (studioId : String) (dryRun : Bool)
    (records : List (Scene × StudioCallResult)) :
    (assign_studio_run studioId dryRun records).total = records.length := by
  unfold assign_studio_run
  rw [foldl_bump_total]
  simp [Summary.total]

/-- Counterexample to claim C2 as stated: in the studio-assign worker a
mutation response whose error text contains "FOREIGN KEY" still yields
outcome failed, not skipped-missing-reference — that worker never inspects
error text. -/
theorem c2_counterexample :
    assign_studio_step "7" false { id := some "1" }
      (.res false (some "FOREIGN KEY constraint failed")) = .failed
  ∧ assign_studio_step "7" false { id := some "1" }
      (.res false (some "FOREIGN KEY constraint failed")) ≠ .skippedMissingRef := by
  decide

/-- Claim C2 (amended): for the tag-apply, rename and performer-assign
workers a non-success response whose error text contains "FOREIGN KEY" —
matched case-insensitively, witnessed by the equivalence with the
uppercase scan — yields skipped-missing-reference, any other error or
exception yields failed, and the per-record steps of those three workers
classify through this shared logic; the studio-assign worker instead
counts every unsuccessful mutation, FOREIGN KEY errors included, as
failed; for all four workers each record of a run is counted in the
summary, so no per-record outcome aborts the run. -/
theorem c2_fk_and_exception_handling :
    (∀ t : String, is_fk_error t = hasSubstr ("FOREIGN KEY".data) (toUpperList t.data))
  ∧ (∀ (sceneId : Option String) (dataId : Option (Option String))
      (errors : Option (List String)) (dump : String),
      dataId ≠ some sceneId →
      (is_fk_error (err_text errors dump) = true →
        classify_mutation_response sceneId (.resp dataId errors dump) =
          .skippedMissingRef)
      ∧ (is_fk_error (err_text errors dump) = false →
        classify_mutation_response sceneId (.resp dataId errors dump) = .failed))
  ∧ (∀ (sceneId : Option String) (msg : String),
      classify_mutation_response sceneId (.exn msg) = .failed)
  ∧ (∀ (tagId : String) (s : Scene) (r : CallResult),
      some tagId ∉ s.tags.map TagRef.id →
      (apply_tag_step tagId false s r).outcome = classify_mutation_response s.id r)
  ∧ (∀ (s : Scene) (r : CallResult),
      rename_step false s r = classify_mutation_response s.id r)
  ∧ (∀ (performerIds : List String) (s : Scene) (r : CallResult),
      ¬ performerIds.all (fun p => some p ∈ s.performers.map PerformerRef.id) = true →
      assign_performers_step performerIds false s r = classify_mutation_response s.id r)
  ∧ (∀ (studioId : String) (s : Scene) (r : StudioCallResult),
      ¬(s.id = none ∨ s.id = some "") →
      s.studio.bind StudioRef.id ≠ some studioId →
      assign_studio_call r = false →
      assign_studio_step studioId false s r = .failed)
  ∧ (∀ (tagId : String) (dryRun : Bool) (records : List (Scene × CallResult)),
      (apply_tag_run tagId dryRun records).total = records.length)
  ∧ (∀ (dryRun : Bool) (records : List (Scene × CallResult)),
      (rename_run dryRun records).total = records.length)
  ∧ (∀ (performerIds : List String) (dryRun : Bool)
      (records : List (Scene × CallResult)),
      (assign_performers_run performerIds dryRun records).total = records.length)
  ∧ (∀ (studioId : String) (dryRun : Bool)
      (records : List (Scene × StudioCallResult)),
      (assign_studio_run studioId dryRun records).total = records.length) := by
  refine ⟨is_fk_error_upper, ?_, fun _ _ => rfl, ?_, fun _ _ => rfl, ?_, ?_,
    apply_tag_run_total, rename_run_total, assign_performers_run_total,
    assign_studio_run_total⟩
  · intro sceneId dataId errors dump hne
    constructor <;> intro hfk <;> simp [classify_mutation_response, hne, hfk]
  · intro tagId s r hmem
    simp [apply_tag_step, hmem]
  · intro performerIds s r hall
    simp only [assign_performers_step]
    rw [if_neg hall, if_neg (by simp)]
  · intro studioId s r hid hstudio hcall
    simp [assign_studio_step, hid, hstudio, hcall]

/-- Witness for C2 at a concrete FOREIGN KEY error response. -/
theorem c2_fk_and_exception_handling_witness :
    classify_mutation_response (some "5")
      (.resp (some (some "9")) (some ["update failed: FOREIGN KEY constraint"]) "") =
      .skippedMissingRef :=
  (c2_fk_and_exception_handling.2.1 (some "5") (some (some "9"))
    (some ["update failed: FOREIGN KEY constraint"]) "" (by decide)).1 (by decide)

/-- Claim C4: in a tag-apply record, a tag already present yields
already-satisfied with no network call; otherwise a dry run yields updated
with no network call; otherwise the mutation sends the existing tag-id
list with the new id appended, so the new id occurs exactly once and all
existing ids are preserved in order. -/
theorem c4_apply_tag_request :
    ∀ (tagId : String) (dryRun : Bool) (s : Scene) (resp : CallResult),
      (some tagId ∈ s.tags.map TagRef.id →
        apply_tag_step tagId dryRun s resp = ⟨.alreadySatisfied, false, none⟩)
    ∧ (some tagId ∉ s.tags.map TagRef.id → dryRun = true →
        apply_tag_step tagId dryRun s resp = ⟨.updated, false, none⟩)
    ∧ (some tagId ∉ s.tags.map TagRef.id → dryRun = false →
        (apply_tag_step tagId dryRun s resp).networkCall = true
      ∧ (apply_tag_step tagId dryRun s resp).sentTagIds =
          some (s.tags.map TagRef.id ++ [some tagId]))
    ∧ (some tagId ∉ s.tags.map TagRef.id →
        (s.tags.map TagRef.id ++ [some tagId]).count (some tagId) = 1) := by
  intro tagId dryRun s resp
  refine ⟨?_, ?_, ?_, ?_⟩
  · intro hmem
    simp [apply_tag_step, hmem]
  · intro hmem hdry
    simp [apply_tag_step, hmem, hdry]
  · intro hmem hdry
    subst hdry
    simp [apply_tag_step, hmem]
  · intro hmem
    rw [List.count_append]
    simp [List.count_eq_zero_of_not_mem hmem]

/-- Witness for C4: applying tag "2" to a scene already tagged "1". -/
theorem c4_apply_tag_request_witness :
    (apply_tag_step "2" false { tags := [{ id := some "1" }] }
      (.resp (some (some "9")) none "")).networkCall = true
  ∧ (apply_tag_step "2" false { tags := [{ id := some "1" }] }
      (.resp (some (some "9")) none "")).sentTagIds = some [some "1", some "2"] := by
  have h := (c4_apply_tag_request "2" false { tags := [{ id := some "1" }] }
    (.resp (some (some "9")) none "")).2.2.1 (by decide) rfl
  exact ⟨h.1, h.2⟩

/-- Claim C10: for each of the four bulk workers, the summary's four
outcome counts sum to the number of input records — every record lands in
exactly one category. -/
theorem c10_summary_partition :
    (∀ (tagId : String) (dryRun : Bool) (records : List (Scene × CallResult)),
      (apply_tag_run tagId dryRun records).total = records.length)
  ∧ (∀ (dryRun : Bool) (records : List (Scene × CallResult)),
      (rename_run dryRun records).total = records.length)
  ∧ (∀ (performerIds : List String) (dryRun : Bool)
      (records : List (Scene × CallResult)),
      (assign_performers_run performerIds dryRun records).total = records.length)
  ∧ (∀ (studioId : String) (dryRun : Bool)
      (records : List (Scene × StudioCallResult)),
      (assign_studio_run studioId dryRun records).total = records.length) :=
  ⟨apply_tag_run_total, rename_run_total, assign_performers_run_total,
    assign_studio_run_total⟩

/-! ## Claim theorems: scene record normalizer -/

theorem max?_char {α : Type} [LinearOrder α] {y : α} {l : List α} :
    l.max? = some y ↔ y ∈ l ∧ ∀ z ∈ l, z ≤ y := by
  haveI : Std.Antisymm ((· : α) ≤ ·) := ⟨fun h1 h2 => le_antisymm h1 h2⟩
  exact List.max?_eq_some_iff (fun z => le_refl z) (fun y z => max_choice y z)
    (fun x y z => max_le_iff)

/-- Counterexample to claim C5 as stated, at one concrete scene whose
first file carries the empty path "" and height 0 and whose second file
carries the path "/b": the code's effective_path is "/b" — the second
file's path, not the first file's path "" the claim demands, because the
normalizer keeps only truthy paths — and the code assigns no resolution
label (the Python truthiness test treats height 0 as absent) while the
claim's step function demands the label "0p". -/
theorem c5_counterexample :
    ([{ path := some "", height := .val 0 },
        { path := some "/b", height := .bad }] : List RawFile).head? =
      some { path := some "", height := .val 0 }
  ∧ (normalize_files [{ path := some "", height := .val 0 },
        { path := some "/b", height := .bad }]).path = some "/b"
  ∧ some "/b" ≠ some ""
  ∧ (normalize_files [{ path := some "", height := .val 0 },
        { path := some "/b", height := .bad }]).height = some 0
  ∧ (normalize_files [{ path := some "", height := .val 0 },
        { path := some "/b", height := .bad }]).resolution = none
  ∧ resolution_label_spec 0 = "0p" := by
  decide

/-- Claim C5 (amended): each derived numeric field is the maximum of the
per-file values that parsed (characterized as a greatest element, so
unparseable per-file values are dropped without failing the scene — shown
explicitly for sizes), the effective path is the first nonempty file path
in server-returned order — the first file's path whenever that is present
and nonempty, while a file with a missing or empty path is skipped — and
the resolution label follows the spec's threshold step function for every
nonzero effective height, while a zero or absent effective height yields
no label. -/
theorem c5_normalizer_fields :
    (∀ (files : List RawFile) (v : Int),
      (normalize_files files).filesize = some v ↔
        v ∈ sizesOf files ∧ ∀ u ∈ sizesOf files, u ≤ v)
  ∧ (∀ (files : List RawFile) (v : ℚ),
      (normalize_files files).duration = some v ↔
        v ∈ durationsOf files ∧ ∀ u ∈ durationsOf files, u ≤ v)
  ∧ (∀ (files : List RawFile) (v : Int),
      (normalize_files files).width = some v ↔
        v ∈ widthsOf files ∧ ∀ u ∈ widthsOf files, u ≤ v)
  ∧ (∀ (files : List RawFile) (v : Int),
      (normalize_files files).height = some v ↔
        v ∈ heightsOf files ∧ ∀ u ∈ heightsOf files, u ≤ v)
  ∧ (∀ (f : RawFile) (files : List RawFile),
      f.size.toOption = none → sizesOf (f :: files) = sizesOf files)
  ∧ (∀ (f : RawFile) (files : List RawFile) (p : String),
      f.path = some p → p ≠ "" → (normalize_files (f :: files)).path = some p)
  ∧ (∀ (f : RawFile) (files : List RawFile),
      f.path = none ∨ f.path = some "" →
      (normalize_files (f :: files)).path = (normalize_files files).path)
  ∧ (∀ (files : List RawFile) (h : Int),
      (normalize_files files).height = some h →
      (h = 0 → (normalize_files files).resolution = none)
    ∧ (h ≠ 0 → (normalize_files files).resolution = some (resolution_label_spec h)))
  ∧ (∀ files : List RawFile,
      (normalize_files files).height = none →
      (normalize_files files).resolution = none) := by
  refine ⟨fun files v => max?_char, fun files v => max?_char,
    fun files v => max?_char, fun files v => max?_char,
    ?_, ?_, ?_, ?_, ?_⟩
  · intro f files hbad
    simp [sizesOf, List.filterMap_cons, hbad]
  · intro f files p hp hne
    simp [normalize_files, pathsOf, List.filterMap_cons, hp, hne]
  · intro f files hp
    rcases hp with hp | hp <;>
      simp [normalize_files, pathsOf, List.filterMap_cons, hp]
  · intro files h hh
    have hres : (normalize_files files).resolution =
        (if h = 0 then none
         else if h ≥ 2160 then some "4K"
         else if h ≥ 1440 then some "1440p"
         else if h ≥ 1080 then some "1080p"
         else if h ≥ 720 then some "720p"
         else if h ≥ 480 then some "480p"
         else some (toString h ++ "p")) := by
      have hh' : (heightsOf files).max? = some h := hh
      simp only [normalize_files, hh']
    constructor
    · intro h0
      rw [hres, if_pos h0]
    · intro h0
      rw [hres, if_neg h0]
      simp only [resolution_label_spec]
      split_ifs <;> rfl
  · intro files hh
    have hh' : (heightsOf files).max? = none := hh
    simp only [normalize_files, hh']

/-- Witness for C5: a scene with files of heights 720 and 1080 has
effective height 1080 and label "1080p". -/
theorem c5_normalizer_fields_witness :
    (normalize_files [{ height := RawVal.val 720 }, { height := RawVal.val 1080 }]).resolution =
      some (resolution_label_spec 1080) :=
  (c5_normalizer_fields.2.2.2.2.2.2.2.1
    [{ height := RawVal.val 720 }, { height := RawVal.val 1080 }] 1080
    ((c5_normalizer_fields.2.2.2.1
      [{ height := RawVal.val 720 }, { height := RawVal.val 1080 }] 1080).mpr
      ⟨by decide, by decide⟩)).2 (by decide)

/-! ## Claim theorems: selection/sort table -/

theorem zipped_sort_perm {le : (Scene × Bool) × Nat → (Scene × Bool) × Nat → Bool}
    (A : List (Scene × Bool)) (n : Nat) (hn : A.length ≤ n) :
    ((((A.zip (List.range n)).mergeSort le).map (fun t => t.1.1)).zip
      (((A.zip (List.range n)).mergeSort le).map (fun t => t.1.2))).Perm A := by
  rw [List.zip_map']
  have he : (fun t : (Scene × Bool) × Nat => (t.1.1, t.1.2)) = fun t => t.1 := rfl
  rw [he]
  have hp : ((A.zip (List.range n)).mergeSort le).Perm (A.zip (List.range n)) :=
    List.mergeSort_perm _ _
  have hmap := hp.map Prod.fst
  rw [List.map_fst_zip A (List.range n) (by simpa using hn)] at hmap
  exact hmap

theorem sort_zip_perm (m : TableModel) (col : Int) (ord : SortOrder) :
    (((m.sort col ord).scenes).zip ((m.sort col ord).checked)).Perm
      (m.scenes.zip m.checked) := by
  simp only [TableModel.sort]
  split
  · exact List.Perm.refl _
  · split
    · exact List.Perm.refl _
    · exact zipped_sort_perm (m.scenes.zip m.checked) m.scenes.length
        (by simp [List.length_zip])

/-- Claim C6: sorting permutes the record list and the selection vector
together — the list of (record, bit) pairs after any sort is a permutation
of the one before, hence each bit stays with its record through any
sequence of sorts, in particular a sort followed by the reverse-order
sort — and requesting a sort on the Select checkbox column is a complete
no-op. -/
theorem c6_sort_moves_selection_with_records :
    (∀ (m : TableModel) (col : Int) (ord : SortOrder),
      (((m.sort col ord).scenes).zip ((m.sort col ord).checked)).Perm
        (m.scenes.zip m.checked))
  ∧ (∀ (m : TableModel) (c₁ c₂ : Int) (o₁ o₂ : SortOrder),
      ((((m.sort c₁ o₁).sort c₂ o₂).scenes).zip
        (((m.sort c₁ o₁).sort c₂ o₂).checked)).Perm (m.scenes.zip m.checked))
  ∧ (∀ (m : TableModel) (col : Int) (ord : SortOrder),
      0 ≤ col → col < (m.visibleColumns.length : Int) →
      m.visibleColumns.getD col.toNat 0 = 0 →
      m.sort col ord = m) := by
  refine ⟨sort_zip_perm, ?_, ?_⟩
  · intro m c₁ c₂ o₁ o₂
    exact (sort_zip_perm (m.sort c₁ o₁) c₂ o₂).trans (sort_zip_perm m c₁ o₁)
  · intro m col ord h0 hlt hsel
    simp only [TableModel.sort]
    rw [if_neg (by omega), if_pos hsel]

/-- Witness for C6: sorting the fresh empty table by its Select column
(visible index 0) changes nothing. -/
theorem c6_sort_moves_selection_with_records_witness :
    (TableModel.init []).sort 0 SortOrder.ascending = TableModel.init [] :=
  c6_sort_moves_selection_with_records.2.2 (TableModel.init []) 0 SortOrder.ascending
    (by decide) (by decide) (by decide)

theorem applySelectByIds_length (idSet : List String) :
    ∀ (ss : List Scene) (cs : List Bool), cs.length = ss.length →
      (applySelectByIds idSet ss cs).length = cs.length := by
  intro ss
  induction ss with
  | nil => intro cs h; rfl
  | cons s ss ih =>
    intro cs h
    cases cs with
    | nil => simp at h
    | cons c cs =>
      simp only [applySelectByIds, List.length_cons]
      rw [ih cs (by simpa using h)]

/-- Claim C7: replacing the record list resets the selection vector to
all-false at the new list's length, and toggling a bit, select-all,
select-by-ids, sorting, and changing column visibility all preserve the
equal-length invariant between the selection vector and the record
list. -/
theorem c7_selection_vector_length :
    (∀ (m : TableModel) (ss : List Scene),
      (m.setScenes ss).checked = List.replicate ss.length false
    ∧ (m.setScenes ss).checked.length = (m.setScenes ss).scenes.length)
  ∧ (∀ (m : TableModel) (row : Nat) (val : Bool),
      m.checked.length = m.scenes.length →
      (m.setChecked row val).checked.length = (m.setChecked row val).scenes.length)
  ∧ (∀ (m : TableModel) (val : Bool),
      m.checked.length = m.scenes.length →
      (m.selectAll val).checked.length = (m.selectAll val).scenes.length)
  ∧ (∀ (m : TableModel) (idSet : List String),
      m.checked.length = m.scenes.length →
      (m.selectByIds idSet).checked.length = (m.selectByIds idSet).scenes.length)
  ∧ (∀ (m : TableModel) (col : Int) (ord : SortOrder),
      m.checked.length = m.scenes.length →
      (m.sort col ord).checked.length = (m.sort col ord).scenes.length)
  ∧ (∀ (m : TableModel) (v : List Nat),
      m.checked.length = m.scenes.length →
      (m.setVisibleColumns v).checked.length =
        (m.setVisibleColumns v).scenes.length) := by
  refine ⟨?_, ?_, ?_, ?_, ?_, ?_⟩
  · intro m ss
    exact ⟨rfl, by simp [TableModel.setScenes]⟩
  · intro m row val h
    simpa [TableModel.setChecked] using h
  · intro m val h
    simp only [TableModel.selectAll]
    split
    · exact h
    · simpa using h
  · intro m idSet h
    simp only [TableModel.selectByIds]
    split
    · exact h
    · simpa [applySelectByIds_length idSet m.scenes m.checked h] using h
  · intro m col ord h
    simp only [TableModel.sort]
    split
    · exact h
    · split
      · exact h
      · simp
  · intro m v h
    exact h

/-- Witness for C7: toggling row 0 of a one-row table keeps the lengths
equal. -/
theorem c7_selection_vector_length_witness :
    ((TableModel.init [{ id := some "1" }]).setChecked 0 true).checked.length =
      ((TableModel.init [{ id := some "1" }]).setChecked 0 true).scenes.length :=
  c7_selection_vector_length.2.1 (TableModel.init [{ id := some "1" }]) 0 true (by decide)

end StashTagger
